import Mathlib

/-!
Verification of the serverless function execution platform (backend dispatcher
in src/backend/main.py, the pool bootstrap, the Prometheus metric
declarations, and the standalone docker-exec2 runner). Each source routine is
embedded as an executable Lean definition; invocation side effects (the
container engine calls, the host temp-directory removals, the metric
observations) are recorded in an explicit trace structure so that properties
about them can be stated and decided.
-/

namespace Serverless

/-- Python str.lower as used by the routing code (main.py lines 199, 201,
233); the strings involved are ASCII. -/
def py_lower (s : String) : String := ⟨s.data.map Char.toLower⟩

/-- A row of the functions table (src/backend/models.py): identifier, unique
name, language, timeout seconds, source code text. -/
structure Function where
  id : Nat
  name : String
  language : String
  timeout : Nat
  code : String
  deriving DecidableEq, Repr

/-- main.py line 180: ext_map maps a language to the staged file extension;
a language outside the map is rejected with the 400 Unsupported language
error before the temp directory is created. -/
def ext_map (language : String) : Option String :=
  if language = "python" then some "py"
  else if language = "javascript" then some "js"
  else none

/-- main.py line 190: the staged file is named function.<ext>. -/
def mk_filename (ext : String) : String := "function." ++ ext

/-- main.py line 187: the host-side temp directory is tempfile.gettempdir()
joined with the fresh uuid of the invocation. -/
def host_temp_dir (tmpRoot uid : String) : String := tmpRoot ++ "/" ++ uid

/-- main.py line 191: the host path of the staged file inside the invocation
temp directory. -/
def host_file_path (tmpRoot uid filename : String) : String :=
  host_temp_dir tmpRoot uid ++ "/" ++ filename

/-- main.py line 220: the fixed in-container destination directory passed to
put_archive for every invocation. -/
def sandbox_dest : String := "/sandbox"

/-- The in-container path at which the staged file lands: the fixed sandbox
directory joined with the archive entry name. -/
def staged_container_path (filename : String) : String :=
  sandbox_dest ++ "/" ++ filename

/-- main.py lines 197-204: the pool key for a (language, tech) pair; the tech
string is lowercased and any value other than gvisor selects the docker pool.
A language outside the supported pair yields no key (the 400 branch). -/
def pool_key (language tech : String) : Option String :=
  if language = "python" then
    some (if py_lower tech = "gvisor" then "gvisor_python" else "docker_python")
  else if language = "javascript" then
    some (if py_lower tech = "gvisor" then "gvisor_javascript" else "docker_javascript")
  else none

/-- The FastAPI query parameter default (main.py line 171): an omitted tech
query is the string docker. -/
def resolve_tech (q : Option String) : String := q.getD "docker"

/-- One entry of the tar archive built by create_tar_for_file (main.py lines
95-103): the archive holds the single staged file under its arcname. -/
structure TarEntry where
  arcname : String
  content : String
  deriving DecidableEq, Repr

/-- main.py lines 95-103: the archive packages exactly the one file, with the
invocation filename as its internal path. -/
def create_tar_for_file (content arcname : String) : List TarEntry :=
  [{ arcname := arcname, content := content }]

/-- main.py lines 226-229: the run command is the bare interpreter applied to
the staged path; nothing else (in particular no timeout wrapper) is added. -/
def build_exec_cmd (language filename : String) : Option (List String) :=
  if language = "python" then some ["python", "/sandbox/" ++ filename]
  else if language = "javascript" then some ["node", "/sandbox/" ++ filename]
  else none

/-- The container pools as a keyed association list (the container_pools
dict, main.py line 42); each value is the ordered list of container names. -/
abbrev PoolMap := List (String × List String)

/-- Python dict .get on the pool map (main.py line 206). -/
def poolGet (pools : PoolMap) (k : String) : Option (List String) :=
  (pools.find? (fun kv => kv.fst == k)).map Prod.snd

/-- main.py lines 206-212: the acquisition step of one invocation: error when
the key has no pool or the pool is empty, otherwise the container at
index 0 — the source keeps no cursor. -/
def select_container (pool : Option (List String)) : Option String :=
  match pool with
  | none => none
  | some [] => none
  | some (c :: _) => some c

/-- The in-container path at which an invocation's code lands (main.py lines
186-229): put_archive targets the fixed /sandbox directory and the archive
entry is named function.<ext>. The invocation identifier uid names only the
host-side temp directory; it does not enter the in-container path. -/
def invocation_staged_path (uid : String) (language : String) : Option String :=
  (ext_map language).map (fun ext => staged_container_path (mk_filename ext))

/-- The caller-visible outcome of one invocation: an HTTPException with its
status and detail, an exception escaping the endpoint uncaught, or the 200
ExecutionResult body (main.py lines 52-55). -/
inductive Response where
  | http (status : Nat) (detail : String)
  | exception (detail : String)
  | result (output : String) (error : String) (container_name : String)
  deriving DecidableEq, Repr

/-- A container-engine call the dispatcher can issue during one invocation. -/
inductive EngineOp where
  | putArchive (dest : String)
  | execRun (cmd : List String)
  | statsQuery
  | statusQuery
  | startContainer
  deriving DecidableEq, Repr

/-- How the environment behaves for one invocation: whether the archive
build, the copy-in and the exec call succeed (with the exception text
otherwise), the exit code and demuxed streams of the process, and the
stats call outcome. A stream is none when the process wrote nothing to it. -/
structure EngineBehavior where
  tarOk : Bool
  tarErr : String
  putArchiveOk : Bool
  putErr : String
  execLaunchOk : Bool
  execErr : String
  exitCode : Nat
  stdoutStream : Option String
  stderrStream : Option String
  statsOk : Bool
  cpuUsage : Nat
  memUsage : Nat
  deriving DecidableEq, Repr

/-- Everything observable about one run of the execute endpoint: the
response, how many times the host temp directory was removed, the temp
directory itself once created, the acquired container, the command passed to
exec_run, the staged archive and its in-container path, the labels attached
to the duration observation, the gauge update, and the engine calls issued. -/
structure ExecTrace where
  resp : Response
  rmtreeCount : Nat
  hostTempDir : Option String
  acquired : Option String
  execCmd : Option (List String)
  stagedArchive : Option (List TarEntry)
  stagedPath : Option String
  durationLabels : Option (List (String × String))
  statsGauges : Option (String × Nat × Nat)
  ops : List EngineOp
  deriving DecidableEq, Repr

/-- The execute endpoint after the registry lookup (main.py lines 179-256),
over the language and code of the fetched function: extension lookup, temp
directory creation, pool-key routing, acquisition of the container at index
0, archive build (outside every protected region), copy-in (its failure
cleans up and raises 500), command build, and the exec call inside the
try/finally that removes the temp directory; on success the demuxed streams
are decoded with empty-string fallbacks and best-effort stats feed the
gauges. The exitCode of the behavior is never read. -/
def execute_core (pools : PoolMap) (language code tech tmpRoot uid : String)
    (eng : EngineBehavior) : ExecTrace :=
  match ext_map language with
  | none =>
    { resp := Response.http 400 "Unsupported language", rmtreeCount := 0,
      hostTempDir := none, acquired := none, execCmd := none,
      stagedArchive := none, stagedPath := none, durationLabels := none,
      statsGauges := none, ops := [] }
  | some ext =>
    let tdir := host_temp_dir tmpRoot uid
    let filename := mk_filename ext
    match pool_key language tech with
    | none =>
      { resp := Response.http 400 "Unsupported language", rmtreeCount := 1,
        hostTempDir := some tdir, acquired := none, execCmd := none,
        stagedArchive := none, stagedPath := none, durationLabels := none,
        statsGauges := none, ops := [] }
    | some pk =>
      match select_container (poolGet pools pk) with
      | none =>
        { resp := Response.http 500 "No available container in pool",
          rmtreeCount := 1, hostTempDir := some tdir, acquired := none,
          execCmd := none, stagedArchive := none, stagedPath := none,
          durationLabels := none, statsGauges := none, ops := [] }
      | some container =>
        if eng.tarOk then
          let archive := create_tar_for_file code filename
          if eng.putArchiveOk then
            let cmd := (build_exec_cmd language filename).getD []
            if eng.execLaunchOk then
              { resp := Response.result (eng.stdoutStream.getD "")
                  (eng.stderrStream.getD "") container,
                rmtreeCount := 1, hostTempDir := some tdir,
                acquired := some container,
                execCmd := build_exec_cmd language filename,
                stagedArchive := some archive,
                stagedPath := some (staged_container_path filename),
                durationLabels := some [("tech", py_lower tech), ("language", language)],
                statsGauges :=
                  if eng.statsOk then some (container, eng.cpuUsage, eng.memUsage)
                  else none,
                ops := [EngineOp.putArchive sandbox_dest, EngineOp.execRun cmd,
                  EngineOp.statsQuery] }
            else
              { resp := Response.http 500 ("Execution failed: " ++ eng.execErr),
                rmtreeCount := 1, hostTempDir := some tdir,
                acquired := some container,
                execCmd := build_exec_cmd language filename,
                stagedArchive := some archive,
                stagedPath := some (staged_container_path filename),
                durationLabels := some [("tech", py_lower tech), ("language", language)],
                statsGauges := none,
                ops := [EngineOp.putArchive sandbox_dest, EngineOp.execRun cmd] }
          else
            { resp := Response.http 500
                ("Failed to copy code into container: " ++ eng.putErr),
              rmtreeCount := 1, hostTempDir := some tdir,
              acquired := some container, execCmd := none,
              stagedArchive := some archive, stagedPath := none,
              durationLabels := none, statsGauges := none,
              ops := [EngineOp.putArchive sandbox_dest] }
        else
          { resp := Response.exception eng.tarErr, rmtreeCount := 0,
            hostTempDir := some tdir, acquired := some container,
            execCmd := none, stagedArchive := none, stagedPath := none,
            durationLabels := none, statsGauges := none, ops := [] }

/-- The execute endpoint applied to a fetched function row: only its language
and its code reach the execution path (main.py lines 179-256). -/
def execute_function (pools : PoolMap) (f : Function) (tech tmpRoot uid : String)
    (eng : EngineBehavior) : ExecTrace :=
  execute_core pools f.language f.code tech tmpRoot uid eng

/-- The same function row with another declared timeout; every other column
is kept. -/
def set_timeout (f : Function) (t : Nat) : Function :=
  { id := f.id, name := f.name, language := f.language, timeout := t, code := f.code }

/-- The same engine behavior with another process exit status. -/
def set_exit_code (eng : EngineBehavior) (e : Nat) : EngineBehavior :=
  { tarOk := eng.tarOk, tarErr := eng.tarErr, putArchiveOk := eng.putArchiveOk,
    putErr := eng.putErr, execLaunchOk := eng.execLaunchOk, execErr := eng.execErr,
    exitCode := e, stdoutStream := eng.stdoutStream, stderrStream := eng.stderrStream,
    statsOk := eng.statsOk, cpuUsage := eng.cpuUsage, memUsage := eng.memUsage }

/-! ## Startup: pool creation (main.py lines 59-93 and 106-116) -/

/-- How the container engine answers the bootstrap for each container name:
whether the create call succeeds, and whether the get fallback finds an
existing container. -/
structure EngineCreateBehavior where
  createOk : String → Bool
  getOk : String → Bool

/-- main.py line 75: the deterministic warm-container name. -/
def container_pool_name (language pool_type : String) (i : Nat) : String :=
  language ++ "_" ++ pool_type ++ "_pool_" ++ toString i

/-- main.py lines 59-93: build one pool of `count` warm containers: reject an
unsupported language; otherwise for each index create the named container, on
an engine error fall back to fetching an existing one, and raise the 500
HTTPException (modelled as the error case) when both fail. -/
def create_container_pool (eng : EngineCreateBehavior) (language : String)
    (count : Nat) (runtime : Option String) : Except String (List String) :=
  if language = "python" ∨ language = "javascript" then
    let pool_type := runtime.getD "docker"
    (List.range count).foldlM
      (fun pool i =>
        let cn := container_pool_name language pool_type i
        if eng.createOk cn then Except.ok (pool ++ [cn])
        else if eng.getOk cn then Except.ok (pool ++ [cn])
        else Except.error ("Container " ++ cn ++ " could not be created"))
      []
  else Except.error "Unsupported language for pool creation."

/-- main.py lines 106-116: the startup hook assigns the two docker pools with
no protection — their HTTPException propagates and startup fails — and only
the two gvisor pools inside the try/except that logs and continues; a pool
assigned before the caught failure stays assigned. -/
def startup_event (eng : EngineCreateBehavior) : Except String PoolMap :=
  match create_container_pool eng "python" 2 none with
  | Except.error e => Except.error e
  | Except.ok dp =>
    match create_container_pool eng "javascript" 2 none with
    | Except.error e => Except.error e
    | Except.ok dj =>
      match create_container_pool eng "python" 2 (some "runsc") with
      | Except.error _ => Except.ok [("docker_python", dp), ("docker_javascript", dj)]
      | Except.ok gp =>
        match create_container_pool eng "javascript" 2 (some "runsc") with
        | Except.error _ =>
          Except.ok [("docker_python", dp), ("docker_javascript", dj),
            ("gvisor_python", gp)]
        | Except.ok gj =>
          Except.ok [("docker_python", dp), ("docker_javascript", dj),
            ("gvisor_python", gp), ("gvisor_javascript", gj)]

/-! ## Metrics (main.py lines 24-26) and the dashboard's expectations
(frontend/frontend.py lines 98-121) -/

/-- The Prometheus metric kinds in play. -/
inductive MetricKind where
  | counter
  | gauge
  | summary
  | histogram
  deriving DecidableEq, Repr

/-- One registered metric family: its name, help text, kind, label names and
(for a histogram) its bucket bounds in milliseconds. -/
structure MetricDef where
  name : String
  help : String
  kind : MetricKind
  labelnames : List String
  buckets_ms : List Nat
  deriving DecidableEq, Repr

/-- main.py line 24: the per-execution latency metric is a Summary over the
labels tech and language. -/
def execution_time : MetricDef :=
  { name := "function_execution_seconds", help := "Time spent executing functions",
    kind := MetricKind.summary, labelnames := ["tech", "language"], buckets_ms := [] }

/-- main.py line 25. -/
def container_cpu_usage : MetricDef :=
  { name := "container_cpu_usage", help := "CPU usage of container",
    kind := MetricKind.gauge, labelnames := ["container_name"], buckets_ms := [] }

/-- main.py line 26. -/
def container_memory_usage : MetricDef :=
  { name := "container_memory_usage", help := "Memory usage of container",
    kind := MetricKind.gauge, labelnames := ["container_name"], buckets_ms := [] }

/-- Every metric family the backend registers. -/
def backend_metrics : List MetricDef :=
  [execution_time, container_cpu_usage, container_memory_usage]

/-- The counter families the repository's own dashboard scrapes and parses
(frontend/frontend.py lines 99-108). -/
def frontend_parsed_counters : List String :=
  ["function_requests_total", "function_errors_total"]

/-- The label names the dashboard's regexes require on those counters and on
the duration sum (frontend/frontend.py lines 100, 105, 110). -/
def frontend_counter_labels : List String :=
  ["function_id", "function_name", "language", "tech"]

/-- The latency label set the claim (spec section 6) attributes to the
counters and the histogram; stated from the spec's words for comparison with
execution_time.labelnames. -/
def spec_claimed_latency_labels : List String :=
  ["function_id", "function_name", "language", "technology"]

/-- The histogram bucket bounds the claim lists, in milliseconds; stated from
the spec's words for comparison with execution_time.buckets_ms. -/
def spec_claimed_buckets_ms : List Nat :=
  [5, 10, 25, 50, 100, 250, 500, 1000, 2500, 5000, 10000]

/-! ## The standalone docker-exec2 runner (src/docker-exec2/executor.py) -/

/-- executor.py line 9: the subprocess timeout is the literal 5 seconds; the
registered function's declared timeout is nowhere in that file. -/
def exec2_timeout_seconds : Nat := 5

/-- executor.py lines 5-14: run the image with the fixed subprocess timeout;
a process outlasting it yields the timed-out error payload, otherwise its
output is returned. (procSeconds is how long the spawned process runs.) -/
def exec2_execute (procSeconds : Nat) (procOutput : String) : Except String String :=
  if exec2_timeout_seconds < procSeconds then Except.error "Function timed out"
  else Except.ok procOutput

/-! ## Concrete fixtures used by the closed theorems -/

/-- A docker python pool of two warm containers. -/
def pools0 : PoolMap := [("docker_python", ["c0", "c1"])]

/-- A fully successful environment: archive, copy-in, exec and stats all
succeed; the process exits 0 writing hi to stdout and nothing to stderr. -/
def engOK : EngineBehavior :=
  { tarOk := true, tarErr := "", putArchiveOk := true, putErr := "",
    execLaunchOk := true, execErr := "", exitCode := 0,
    stdoutStream := some "hi\n", stderrStream := none,
    statsOk := true, cpuUsage := 100, memUsage := 200 }

/-- A run whose user code exits 1 writing only to stderr. -/
def engNonZero : EngineBehavior :=
  { tarOk := true, tarErr := "", putArchiveOk := true, putErr := "",
    execLaunchOk := true, execErr := "", exitCode := 1,
    stdoutStream := none, stderrStream := some "Exception: boom",
    statsOk := true, cpuUsage := 100, memUsage := 200 }

/-- An invocation whose archive build raises. -/
def engTarFail : EngineBehavior :=
  { tarOk := false, tarErr := "tar build failed", putArchiveOk := true, putErr := "",
    execLaunchOk := true, execErr := "", exitCode := 0,
    stdoutStream := none, stderrStream := none,
    statsOk := true, cpuUsage := 0, memUsage := 0 }

/-- An invocation whose copy-in raises. -/
def engPutFail : EngineBehavior :=
  { tarOk := true, tarErr := "", putArchiveOk := false, putErr := "copy refused",
    execLaunchOk := true, execErr := "", exitCode := 0,
    stdoutStream := none, stderrStream := none,
    statsOk := true, cpuUsage := 0, memUsage := 0 }

/-- An invocation whose exec call raises. -/
def engExecFail : EngineBehavior :=
  { tarOk := true, tarErr := "", putArchiveOk := true, putErr := "",
    execLaunchOk := false, execErr := "engine down", exitCode := 0,
    stdoutStream := none, stderrStream := none,
    statsOk := true, cpuUsage := 0, memUsage := 0 }

/-- A bootstrap engine for which every create and every get fails. -/
def engAllFail : EngineCreateBehavior :=
  { createOk := fun _ => false, getOk := fun _ => false }

/-- A bootstrap engine with the runc runtime available and the runsc (gvisor)
runtime absent: exactly the four docker-named containers can be created. -/
def engDockerOnly : EngineCreateBehavior :=
  { createOk := fun n =>
      n == "python_docker_pool_0" || n == "python_docker_pool_1"
        || n == "javascript_docker_pool_0" || n == "javascript_docker_pool_1",
    getOk := fun _ => false }

/-- A registered function with a one-second declared timeout. -/
def fTimeout1 : Function :=
  { id := 1, name := "spin", language := "python", timeout := 1, code := "while True: pass" }

/-- The same function with a one-hour declared timeout. -/
def fTimeout3600 : Function :=
  { id := 1, name := "spin", language := "python", timeout := 3600, code := "while True: pass" }

/-! ## Claim theorems -/

/-- C1 counterexample: against the pool of size 2 holding c0 and c1, two
consecutive acquisitions (two invocations, distinct invocation identifiers)
both acquire c0, and c1 differs from c0 — so two consecutive acquisitions do
not visit each of the two containers exactly once before a repeat. -/
theorem C1_counterexample :
    (execute_core pools0 "python" "print(1)" "docker" "/tmp" "uid-one" engOK).acquired
      = some "c0"
    ∧ (execute_core pools0 "python" "print(1)" "docker" "/tmp" "uid-two" engOK).acquired
      = some "c0"
    ∧ ("c0" : String) ≠ "c1" := by
  refine ⟨rfl, rfl, by decide⟩

/-- C1 amended: acquisition is not round-robin and keeps no cursor: whenever
the routed pool is non-empty, the invocation acquires the container at index
0 of that pool (main.py line 212), whatever the invocation identifier, the
engine behavior or any earlier acquisitions. -/
theorem C1_acquired_is_always_head
    (pools : PoolMap) (language code tech tmpRoot uid : String) (eng : EngineBehavior)
    (ext pk c : String) (rest : List String)
    (hext : ext_map language = some ext)
    (hpk : pool_key language tech = some pk)
    (hpool : poolGet pools pk = some (c :: rest)) :
    (execute_core pools language code tech tmpRoot uid eng).acquired = some c := by
  simp only [execute_core, hext, hpk, hpool, select_container]
  cases htar : eng.tarOk <;> cases hput : eng.putArchiveOk <;>
    cases hrun : eng.execLaunchOk <;> simp

/-- C1 witness: the amended statement at the concrete pool of C1's
counterexample. -/
theorem C1_witness :
    (execute_core pools0 "python" "print(1)" "docker" "/tmp" "uid-three" engOK).acquired
      = some "c0" :=
  C1_acquired_is_always_head pools0 "python" "print(1)" "docker" "/tmp" "uid-three"
    engOK "py" "docker_python" "c0" ["c1"] (by decide) (by decide) (by decide)

/-- C2: two invocations with distinct identifiers of the same python function
are staged at the identical in-container path /sandbox/function.py: the
destination directory is the fixed /sandbox, not an invocation-named
directory. Only the host-side temp directories are invocation-scoped. -/
theorem C2_staged_paths_collide :
    invocation_staged_path "uid-aaaa" "python" = some "/sandbox/function.py"
    ∧ invocation_staged_path "uid-bbbb" "python" = some "/sandbox/function.py"
    ∧ ("uid-aaaa" : String) ≠ "uid-bbbb"
    ∧ (execute_core pools0 "python" "print(1)" "docker" "/tmp" "uid-aaaa" engOK).stagedPath
      = (execute_core pools0 "python" "print(1)" "docker" "/tmp" "uid-bbbb" engOK).stagedPath
    ∧ (execute_core pools0 "python" "print(1)" "docker" "/tmp" "uid-aaaa" engOK).hostTempDir
      ≠ (execute_core pools0 "python" "print(1)" "docker" "/tmp" "uid-bbbb" engOK).hostTempDir := by
  refine ⟨rfl, rfl, by decide, rfl, by decide⟩

/-- C3 counterexample: the in-container command is the same
["python", "/sandbox/function.py"] for a declared timeout of 1 second and of
3600 seconds, so it cannot enforce the declared timeout — no timeout wrapper
of any kind appears in it. -/
theorem C3_counterexample :
    (execute_function pools0 fTimeout1 "docker" "/tmp" "uid-t1" engOK).execCmd
      = some ["python", "/sandbox/function.py"]
    ∧ (execute_function pools0 fTimeout3600 "docker" "/tmp" "uid-t2" engOK).execCmd
      = some ["python", "/sandbox/function.py"]
    ∧ fTimeout1.timeout ≠ fTimeout3600.timeout := by
  refine ⟨rfl, rfl, by decide⟩

/-- C3 amended: no step of the execution path enforces the declared timeout:
the whole invocation trace is invariant under the FunctionSpec timeout
column, the run command is the bare interpreter applied to the staged path,
and the only timeout in the repository is docker-exec2's hard-coded 5-second
host-side subprocess timeout, which is likewise independent of the declared
value. -/
theorem C3_no_timeout_enforcement :
    (∀ (pools : PoolMap) (f : Function) (t : Nat) (tech tmpRoot uid : String)
        (eng : EngineBehavior),
        execute_function pools (set_timeout f t) tech tmpRoot uid eng
          = execute_function pools f tech tmpRoot uid eng)
    ∧ (∀ fn : String, build_exec_cmd "python" fn = some ["python", "/sandbox/" ++ fn])
    ∧ (∀ fn : String, build_exec_cmd "javascript" fn = some ["node", "/sandbox/" ++ fn])
    ∧ exec2_timeout_seconds = 5
    ∧ (∀ (s : Nat) (o : String),
        exec2_execute s o =
          if 5 < s then Except.error "Function timed out" else Except.ok o) := by
  refine ⟨fun pools f t tech tmpRoot uid eng => rfl, fun fn => rfl, fun fn => rfl,
    rfl, fun s o => rfl⟩

/-- C4: an invocation whose user code exits 1 still returns the 200 result
with the captured streams — but nothing increments any counter: the backend
registers only the execution-time summary (labels tech, language) and the two
gauges, none of which is a counter, and the request/error counter families
the repository's own dashboard parses are not among the registered metric
names. -/
theorem C4_counters_never_incremented :
    (execute_core pools0 "python" "raise Exception" "docker" "/tmp" "uid-c4" engNonZero).resp
      = Response.result "" "Exception: boom" "c0"
    ∧ backend_metrics.map MetricDef.name
      = ["function_execution_seconds", "container_cpu_usage", "container_memory_usage"]
    ∧ backend_metrics.all (fun m => m.kind != MetricKind.counter) = true
    ∧ ("function_requests_total" ∈ frontend_parsed_counters
        ∧ "function_requests_total" ∉ backend_metrics.map MetricDef.name)
    ∧ ("function_errors_total" ∈ frontend_parsed_counters
        ∧ "function_errors_total" ∉ backend_metrics.map MetricDef.name) := by
  refine ⟨rfl, rfl, rfl, ⟨by decide, by decide⟩, ⟨by decide, by decide⟩⟩

/-- C5: cleanup is missed on the archive-build-failure path: an exception
raised by create_tar_for_file (main.py line 216) sits outside every protected
region, so the host temp directory is removed zero times there and the
exception propagates — while the pool-unavailable, copy-in-failure,
execution-failure and success paths each remove it exactly once. -/
theorem C5_cleanup_missed_on_archive_failure :
    (execute_core pools0 "python" "x" "docker" "/tmp" "uid-c5a" engTarFail).rmtreeCount = 0
    ∧ (execute_core pools0 "python" "x" "docker" "/tmp" "uid-c5a" engTarFail).resp
      = Response.exception "tar build failed"
    ∧ (execute_core [] "python" "x" "docker" "/tmp" "uid-c5b" engOK).rmtreeCount = 1
    ∧ (execute_core pools0 "python" "x" "docker" "/tmp" "uid-c5c" engPutFail).rmtreeCount = 1
    ∧ (execute_core pools0 "python" "x" "docker" "/tmp" "uid-c5d" engExecFail).rmtreeCount = 1
    ∧ (execute_core pools0 "python" "x" "docker" "/tmp" "uid-c5e" engOK).rmtreeCount = 1 := by
  refine ⟨rfl, rfl, rfl, rfl, rfl, rfl⟩

/-- Helper: the caller-visible response of an invocation depends on the
technology string only through the pool key it routes to. -/
theorem execute_core_resp_of_key_eq
    (pools : PoolMap) (language code tech1 tech2 tmpRoot uid : String)
    (eng : EngineBehavior)
    (hkey : pool_key language tech1 = pool_key language tech2) :
    (execute_core pools language code tech1 tmpRoot uid eng).resp
      = (execute_core pools language code tech2 tmpRoot uid eng).resp := by
  unfold execute_core
  rw [hkey]
  cases hext : ext_map language with
  | none => rfl
  | some ext =>
    dsimp only
    cases hpk : pool_key language tech2 with
    | none => rfl
    | some pk =>
      dsimp only
      cases hsel : select_container (poolGet pools pk) with
      | none => rfl
      | some container =>
        dsimp only
        cases htar : eng.tarOk <;> cases hput : eng.putArchiveOk <;>
          cases hrun : eng.execLaunchOk <;> simp

/-- C6: a technology string whose lowercasing is not gvisor routes to the
docker pool of the function's language, in particular an omitted value (the
query default docker) and any unrecognized value; such a value is never
rejected — the invocation answers exactly as a docker-technology invocation
does. -/
theorem C6_non_gvisor_routes_to_docker
    (tech : String) (h : py_lower tech ≠ "gvisor") :
    pool_key "python" tech = some "docker_python"
    ∧ pool_key "javascript" tech = some "docker_javascript"
    ∧ resolve_tech none = "docker"
    ∧ ∀ (pools : PoolMap) (language code tmpRoot uid : String) (eng : EngineBehavior),
        (execute_core pools language code tech tmpRoot uid eng).resp
          = (execute_core pools language code "docker" tmpRoot uid eng).resp := by
  have hdock : py_lower "docker" ≠ "gvisor" := by decide
  refine ⟨by simp [pool_key, h], by simp [pool_key, h], rfl, ?_⟩
  intro pools language code tmpRoot uid eng
  refine execute_core_resp_of_key_eq pools language code tech "docker" tmpRoot uid eng ?_
  by_cases h1 : language = "python"
  · simp [pool_key, h1, h, hdock]
  · by_cases h2 : language = "javascript" <;> simp [pool_key, h1, h2, h, hdock]

/-- C6 witness: the uppercase string DOCKER lowercases away from gvisor, and
the statement holds there. -/
theorem C6_witness :
    pool_key "python" "DOCKER" = some "docker_python"
    ∧ pool_key "javascript" "DOCKER" = some "docker_javascript"
    ∧ resolve_tech none = "docker"
    ∧ ∀ (pools : PoolMap) (language code tmpRoot uid : String) (eng : EngineBehavior),
        (execute_core pools language code "DOCKER" tmpRoot uid eng).resp
          = (execute_core pools language code "docker" tmpRoot uid eng).resp :=
  C6_non_gvisor_routes_to_docker "DOCKER" (by decide)

/-- C7 counterexample: with an engine on which every container create and
every fetch fails, the startup hook itself fails on the first docker pool —
the HTTPException propagates out of startup instead of the key being omitted,
so the claimed degradation does not hold for every pool key. -/
theorem C7_counterexample :
    startup_event engAllFail
      = Except.error "Container python_docker_pool_0 could not be created" := by
  rfl

/-- C7 amended: the omit-the-key degradation holds only for the gvisor pool
keys: when the gvisor python pool cannot be created or fetched while both
docker pools come up, startup completes with both gvisor keys absent, and a
later execution requesting gvisor fails with the 500 no-available-container
error after removing its temp directory once, acquiring no container and
issuing no engine call; a docker pool failure instead propagates out of the
startup hook. -/
theorem C7_gvisor_only_degradation
    (eng : EngineCreateBehavior) (dp dj : List String) (e : String)
    (hdp : create_container_pool eng "python" 2 none = Except.ok dp)
    (hdj : create_container_pool eng "javascript" 2 none = Except.ok dj)
    (hg : create_container_pool eng "python" 2 (some "runsc") = Except.error e) :
    startup_event eng = Except.ok [("docker_python", dp), ("docker_javascript", dj)]
    ∧ poolGet [("docker_python", dp), ("docker_javascript", dj)] "gvisor_python" = none
    ∧ ∀ (code tmpRoot uid : String) (engB : EngineBehavior),
        (execute_core [("docker_python", dp), ("docker_javascript", dj)]
            "python" code "gvisor" tmpRoot uid engB).resp
          = Response.http 500 "No available container in pool"
        ∧ (execute_core [("docker_python", dp), ("docker_javascript", dj)]
            "python" code "gvisor" tmpRoot uid engB).ops = []
        ∧ (execute_core [("docker_python", dp), ("docker_javascript", dj)]
            "python" code "gvisor" tmpRoot uid engB).rmtreeCount = 1
        ∧ (execute_core [("docker_python", dp), ("docker_javascript", dj)]
            "python" code "gvisor" tmpRoot uid engB).acquired = none := by
  refine ⟨?_, rfl, fun code tmpRoot uid engB => ⟨rfl, rfl, rfl, rfl⟩⟩
  simp only [startup_event, hdp, hdj, hg]

/-- C7 witness: the amended statement on the engine that can create exactly
the four docker-named containers. -/
theorem C7_witness :
    startup_event engDockerOnly
      = Except.ok [("docker_python", ["python_docker_pool_0", "python_docker_pool_1"]),
          ("docker_javascript", ["javascript_docker_pool_0", "javascript_docker_pool_1"])]
    ∧ poolGet [("docker_python", ["python_docker_pool_0", "python_docker_pool_1"]),
          ("docker_javascript", ["javascript_docker_pool_0", "javascript_docker_pool_1"])]
        "gvisor_python" = none
    ∧ ∀ (code tmpRoot uid : String) (engB : EngineBehavior),
        (execute_core [("docker_python", ["python_docker_pool_0", "python_docker_pool_1"]),
            ("docker_javascript", ["javascript_docker_pool_0", "javascript_docker_pool_1"])]
            "python" code "gvisor" tmpRoot uid engB).resp
          = Response.http 500 "No available container in pool"
        ∧ (execute_core [("docker_python", ["python_docker_pool_0", "python_docker_pool_1"]),
            ("docker_javascript", ["javascript_docker_pool_0", "javascript_docker_pool_1"])]
            "python" code "gvisor" tmpRoot uid engB).ops = []
        ∧ (execute_core [("docker_python", ["python_docker_pool_0", "python_docker_pool_1"]),
            ("docker_javascript", ["javascript_docker_pool_0", "javascript_docker_pool_1"])]
            "python" code "gvisor" tmpRoot uid engB).rmtreeCount = 1
        ∧ (execute_core [("docker_python", ["python_docker_pool_0", "python_docker_pool_1"]),
            ("docker_javascript", ["javascript_docker_pool_0", "javascript_docker_pool_1"])]
            "python" code "gvisor" tmpRoot uid engB).acquired = none :=
  C7_gvisor_only_degradation engDockerOnly
    ["python_docker_pool_0", "python_docker_pool_1"]
    ["javascript_docker_pool_0", "javascript_docker_pool_1"]
    "Container python_runsc_pool_0 could not be created" rfl rfl rfl

/-- C8 counterexample: a complete, successful invocation issues exactly the
copy-in, the exec call and the stats query — no live-status query and no
container start occur between acquisition and staging or anywhere else, so a
container stopped out-of-band would be executed against as-is. -/
theorem C8_counterexample :
    (execute_core pools0 "python" "print(1)" "docker" "/tmp" "uid-c8" engOK).ops
      = [EngineOp.putArchive "/sandbox",
        EngineOp.execRun ["python", "/sandbox/function.py"], EngineOp.statsQuery]
    ∧ EngineOp.statusQuery ∉
        (execute_core pools0 "python" "print(1)" "docker" "/tmp" "uid-c8" engOK).ops
    ∧ EngineOp.startContainer ∉
        (execute_core pools0 "python" "print(1)" "docker" "/tmp" "uid-c8" engOK).ops := by
  refine ⟨rfl, by decide, by decide⟩

/-- C8 amended: on every path of every invocation the dispatcher neither
queries the acquired container's live status nor issues a container start;
the container handed out by the pool is used exactly as it is. -/
theorem C8_no_status_query_ever
    (pools : PoolMap) (language code tech tmpRoot uid : String) (eng : EngineBehavior) :
    EngineOp.statusQuery ∉ (execute_core pools language code tech tmpRoot uid eng).ops
    ∧ EngineOp.startContainer ∉ (execute_core pools language code tech tmpRoot uid eng).ops := by
  unfold execute_core
  cases hext : ext_map language with
  | none => simp
  | some ext =>
    dsimp only
    cases hpk : pool_key language tech with
    | none => simp
    | some pk =>
      dsimp only
      cases hsel : select_container (poolGet pools pk) with
      | none => simp
      | some container =>
        dsimp only
        cases htar : eng.tarOk <;> cases hput : eng.putArchiveOk <;>
          cases hrun : eng.execLaunchOk <;> simp

/-- C9 counterexample: the per-execution latency metric the backend registers
is a Summary, not a histogram; its labels are (tech, language), not the four
claimed labels; and it declares no buckets, in particular not the claimed
eleven-bucket set. -/
theorem C9_counterexample :
    execution_time.kind = MetricKind.summary
    ∧ execution_time.kind ≠ MetricKind.histogram
    ∧ execution_time.labelnames = ["tech", "language"]
    ∧ execution_time.labelnames ≠ spec_claimed_latency_labels
    ∧ execution_time.buckets_ms = []
    ∧ execution_time.buckets_ms ≠ spec_claimed_buckets_ms := by
  refine ⟨rfl, by decide, rfl, by decide, rfl, by decide⟩

/-- C9 amended: the latency metric recorded per execution is the Summary
function_execution_seconds carrying the labels (tech, language) and no
buckets, and every duration observation an invocation makes carries exactly
those label names; the container CPU/memory gauges do carry the
container_name label as claimed. -/
theorem C9_latency_is_summary_tech_language :
    execution_time.kind = MetricKind.summary
    ∧ execution_time.labelnames = ["tech", "language"]
    ∧ execution_time.buckets_ms = []
    ∧ container_cpu_usage.kind = MetricKind.gauge
    ∧ container_cpu_usage.labelnames = ["container_name"]
    ∧ container_memory_usage.kind = MetricKind.gauge
    ∧ container_memory_usage.labelnames = ["container_name"]
    ∧ ∀ (pools : PoolMap) (language code tech tmpRoot uid : String)
        (eng : EngineBehavior),
        (execute_core pools language code tech tmpRoot uid eng).durationLabels = none
        ∨ (execute_core pools language code tech tmpRoot uid eng).durationLabels
          = some [("tech", py_lower tech), ("language", language)] := by
  refine ⟨rfl, rfl, rfl, rfl, rfl, rfl, rfl, ?_⟩
  intro pools language code tech tmpRoot uid eng
  unfold execute_core
  cases hext : ext_map language with
  | none => simp
  | some ext =>
    dsimp only
    cases hpk : pool_key language tech with
    | none => simp
    | some pk =>
      dsimp only
      cases hsel : select_container (poolGet pools pk) with
      | none => simp
      | some container =>
        dsimp only
        cases htar : eng.tarOk <;> cases hput : eng.putArchiveOk <;>
          cases hrun : eng.execLaunchOk <;> simp

/-- C10: whenever the in-container command is launched (the pool routed, the
archive built, the copy-in accepted and the exec call raising nothing), the
response is the result whose output is the decoded stdout stream and whose
error is the decoded stderr stream, each falling back to the empty string for
a stream the process never wrote; and the whole invocation trace is invariant
under the process exit status, which the dispatcher never inspects. -/
theorem C10_result_fields_from_streams
    (pools : PoolMap) (language code tech tmpRoot uid : String) (eng : EngineBehavior)
    (ext pk c : String) (rest : List String)
    (hext : ext_map language = some ext)
    (hpk : pool_key language tech = some pk)
    (hpool : poolGet pools pk = some (c :: rest))
    (htar : eng.tarOk = true) (hput : eng.putArchiveOk = true)
    (hrun : eng.execLaunchOk = true) :
    (execute_core pools language code tech tmpRoot uid eng).resp
      = Response.result (eng.stdoutStream.getD "") (eng.stderrStream.getD "") c
    ∧ ∀ e : Nat,
        execute_core pools language code tech tmpRoot uid (set_exit_code eng e)
          = execute_core pools language code tech tmpRoot uid eng := by
  constructor
  · simp only [execute_core, hext, hpk, hpool, select_container, htar, hput, hrun]
    simp
  · intro e
    rfl

/-- C10 witness: at a concrete invocation whose process exits 1 writing only
to stderr, the result still carries output empty and error equal to the
stderr text, and replacing the exit status changes nothing. -/
theorem C10_witness :
    (execute_core pools0 "python" "print(1)" "docker" "/tmp" "uid-w10" engNonZero).resp
      = Response.result "" "Exception: boom" "c0"
    ∧ ∀ e : Nat,
        execute_core pools0 "python" "print(1)" "docker" "/tmp" "uid-w10"
            (set_exit_code engNonZero e)
          = execute_core pools0 "python" "print(1)" "docker" "/tmp" "uid-w10" engNonZero :=
  C10_result_fields_from_streams pools0 "python" "print(1)" "docker" "/tmp" "uid-w10"
    engNonZero "py" "docker_python" "c0" ["c1"] (by decide) (by decide) (by decide)
    rfl rfl rfl

end Serverless
